import Mathlib

/-!
Shallow embedding of the demo repository's page-local logic, and proofs of the
frozen claims about it.  Each definition is translated from the TypeScript
source file named in its doc comment.
-/

namespace ReactConfDemos

/-! ### Server action (src/app/server-actions/actions.ts) -/

/-- The three form fields that `submitFormAction` reads from its `FormData`
argument via `formData.get`; `none` models a `null` return (absent field). -/
structure SubmitFormData where
  name : Option String
  email : Option String
  message : Option String
deriving DecidableEq, Repr

/-- The shape of the object `submitFormAction` returns: `success` is always
set, `error` is present on the two failure returns, `message` on success. -/
structure ActionResult where
  success : Bool
  error : Option String
  message : Option String
deriving DecidableEq, Repr

/-- JavaScript truthiness of a `string | null` value: `null` and the empty
string are falsy, every other string is truthy. -/
def entryTruthy : Option String → Bool
  | none => false
  | some s => !(s == "")

/-- The string value of a form entry once it passed the truthiness check
(the source casts with `as string`; `getD ""` is never hit on truthy input). -/
def entryValue (o : Option String) : String := o.getD ""

/-- JavaScript `s.includes(c)` for a single-character needle: the character
occurs in the string. -/
def jsIncludes (s : String) (c : Char) : Bool := s.data.contains c

/-- JavaScript `s.trim()`: drop whitespace from both ends. -/
def jsTrim (s : String) : String :=
  String.mk (((s.data.dropWhile Char.isWhitespace).reverse.dropWhile
    Char.isWhitespace).reverse)

/-- The success message built by `submitFormAction`:
`Thanks ${name}! We received your message and will contact you at ${email} soon.` -/
def successMessage (name email : String) : String :=
  "Thanks " ++ name ++ "! We received your message and will contact you at "
    ++ email ++ " soon."

/-- `submitFormAction` from src/app/server-actions/actions.ts.  The 1000 ms
`await` merely delays the same computation, so the settled value is this pure
function of the inputs.  `prevState` has type `any` in the source and is never
read, which the polymorphic parameter reflects. -/
def submitFormAction {α : Type} (prevState : α) (formData : SubmitFormData) :
    ActionResult :=
  let name := formData.name
  let email := formData.email
  let message := formData.message
  if !(entryTruthy name) || !(entryTruthy email) || !(entryTruthy message) then
    { success := false, error := some "Please fill in all fields", message := none }
  else if !(jsIncludes (entryValue email) '@') then
    { success := false, error := some "Please enter a valid email address", message := none }
  else
    { success := true, error := none,
      message := some (successMessage (entryValue name) (entryValue email)) }

/-- `s` occurs as a contiguous substring of `t`. -/
def SubstringOf (s t : String) : Prop := ∃ p q, t = p ++ s ++ q

/-! ### Form Actions todo reducer (src/app/use-optimistic/page.tsx, FormActionsDemo) -/

/-- The `useActionState` reducer of the Form Actions demo: read the `todo`
field, return the current list unchanged when its trim is empty, otherwise
append it.  (The 500 ms simulated delay only postpones the same result.) -/
def todoFormAction (currentTodos : List String) (todo : String) : List String :=
  if jsTrim todo == "" then currentTodos
  else currentTodos ++ [todo]

/-! ### Optimistic todo reducer (src/app/use-optimistic/page.tsx) -/

/-- The `Todo` record of the useOptimistic demo. -/
structure Todo where
  id : Nat
  text : String
  completed : Bool
deriving DecidableEq, Repr

/-- The optimistic value passed to `setOptimisticTodos`. -/
structure OptimisticValue where
  id : Nat
  completed : Bool
deriving DecidableEq, Repr

/-- The initial todo list of the useOptimistic demo. -/
def initialTodos : List Todo :=
  [ { id := 1, text := "Learn React 19", completed := false },
    { id := 2, text := "Try useOptimistic", completed := false },
    { id := 3, text := "Build awesome apps", completed := false } ]

/-- The reducer given to `useOptimistic`: map over the todos, replacing the
`completed` flag of every todo whose id equals the optimistic value's id. -/
def optimisticReducer (state : List Todo) (optimisticValue : OptimisticValue) :
    List Todo :=
  state.map fun todo =>
    if todo.id == optimisticValue.id then
      { todo with completed := optimisticValue.completed }
    else todo

/-! ### Shopping cart of PageVisitTrackerDemo (src/app/use-effect-event/page.tsx) -/

/-- A shopping cart item; the source's decimal prices are stored in cents
(29.99 becomes 2999) so the record stays exact. -/
structure ShoppingCartItem where
  id : Nat
  name : String
  price : Nat
deriving DecidableEq, Repr

/-- The four `availableItems` of PageVisitTrackerDemo. -/
def availableItems : List ShoppingCartItem :=
  [ { id := 1, name := "Widget", price := 2999 },
    { id := 2, name := "Gadget", price := 4999 },
    { id := 3, name := "Doohickey", price := 1999 },
    { id := 4, name := "Thingamajig", price := 3999 } ]

/-- The initial cart state of PageVisitTrackerDemo (the first two items). -/
def initialItems : List ShoppingCartItem :=
  [ { id := 1, name := "Widget", price := 2999 },
    { id := 2, name := "Gadget", price := 4999 } ]

/-- `addItem`: filter `availableItems` down to those whose id is not already
in the cart, and append the first such item when one exists. -/
def addItem (items : List ShoppingCartItem) : List ShoppingCartItem :=
  let unusedItems :=
    availableItems.filter fun item => !(items.any fun i => i.id == item.id)
  match unusedItems with
  | [] => items
  | x :: _ => items ++ [x]

/-- `removeItem`: keep every cart item whose id differs from the argument. -/
def removeItem (items : List ShoppingCartItem) (id : Nat) :
    List ShoppingCartItem :=
  items.filter fun item => !(item.id == id)

/-- A user interaction with the cart: the Add Item button or a Remove button. -/
inductive CartOp where
  | add : CartOp
  | remove : Nat → CartOp

/-- Apply one cart operation. -/
def applyCartOp (items : List ShoppingCartItem) : CartOp → List ShoppingCartItem
  | .add => addItem items
  | .remove id => removeItem items id

/-- The cart after a sequence of operations starting from the initial cart. -/
def runCartOps (ops : List CartOp) : List ShoppingCartItem :=
  ops.foldl applyCartOp initialItems

/-! ### Error boundary (src/app/error-handling/page.tsx) -/

/-- The `ErrorBoundary` component state: `{ error: Error | null }`. -/
structure ErrorBoundaryState (ε : Type) where
  error : Option ε
deriving DecidableEq, Repr

/-- `static getDerivedStateFromError(error) { return { error } }`. -/
def getDerivedStateFromError {ε : Type} (e : ε) : ErrorBoundaryState ε :=
  { error := some e }

/-- The state installed by the reset callback the boundary hands its
fallback: `() => this.setState({ error: null })`. -/
def resetErrorState (ε : Type) : ErrorBoundaryState ε := { error := none }

/-- What one render of the boundary produces: the fallback markup or the
children unchanged. -/
inductive BoundaryOutput (χ φ : Type) where
  | childrenOut : χ → BoundaryOutput χ φ
  | fallbackOut : φ → BoundaryOutput χ φ
deriving DecidableEq, Repr

/-- `render()`: when an error is stored, return
`this.props.fallback(error, reset)` (the reset argument is modelled by the
state it installs); otherwise return `this.props.children`. -/
def renderBoundary {ε χ φ : Type} (s : ErrorBoundaryState ε) (children : χ)
    (fallback : ε → ErrorBoundaryState ε → φ) : BoundaryOutput χ φ :=
  match s.error with
  | some e => .fallbackOut (fallback e (resetErrorState ε))
  | none => .childrenOut children

/-- The state transition around a child render: a throw is caught and stored
via `getDerivedStateFromError`; a successful render leaves the state alone. -/
def boundaryCatch {ε χ : Type} (s : ErrorBoundaryState ε) (child : Except ε χ) :
    ErrorBoundaryState ε :=
  match child with
  | .error e => getDerivedStateFromError e
  | .ok _ => s

/-! ### useEffectEvent polyfill (src/app/use-effect-event/page.tsx) -/

/-- The effect body the polyfill runs after every render:
`ref.current = callback` (the new callback replaces the held one). -/
def updateHolder {α β : Type} (held : α → β) (callback : α → β) : α → β :=
  callback

/-- The holder ref's content after a sequence of renders, each storing its
render's callback, starting from the mount-time content. -/
def holderAfter {α β : Type} (init : α → β) (callbacks : List (α → β)) :
    α → β :=
  callbacks.foldl updateHolder init

/-- The trampoline body: `(...args) => ref.current(...args)` — it reads the
holder at invocation time and applies it to the arguments. -/
def trampoline {α β : Type} (holder : α → β) (a : α) : β := holder a

/-- What `useEffectEvent` returns on a render whose callback argument is
`callback`: `useCallback(..., [])` memoises the trampoline, which closes over
the ref cell only, so the returned function ignores `callback` itself. -/
def useEffectEventReturn {α β : Type} (callback : α → β) : (α → β) → α → β :=
  fun holder => trampoline holder

/-! ### View transitions helper (src/app/view-transitions/page.tsx) -/

/-- Model of the browser primitive `document.startViewTransition`: by the
View Transitions API contract it invokes the update callback to apply the
state change (the snapshotting and animation have no state effect). -/
def startViewTransition {τ : Type} (callback : τ → τ) : τ → τ := callback

/-- `withViewTransition`: when the API is supported, wrap the update in
`document.startViewTransition(() => updateFn())`; otherwise call `updateFn()`
directly.  `supported` models the `supportsViewTransitions() &&
document.startViewTransition` test. -/
def withViewTransition {τ : Type} (supported : Bool) (updateFn : τ → τ) :
    τ → τ :=
  if supported then startViewTransition (fun st => updateFn st)
  else updateFn

/-- Instrumented update function: applies `f` to the state and counts the
invocation. -/
def countingUpdate {σ : Type} (f : σ → σ) : σ × Nat → σ × Nat :=
  fun p => (f p.1, p.2 + 1)

/-! ### Simulated async operations (src/unnamed/part_000, src/unnamed/part_003,
src/app/use-optimistic/page.tsx) -/

/-- How a promise settles. -/
inductive Settled (α : Type) where
  | resolved : α → Settled α
  | rejected : String → Settled α
deriving DecidableEq, Repr

/-- Whether a settlement is a resolution. -/
def Settled.isResolved {α : Type} : Settled α → Bool
  | .resolved _ => true
  | .rejected _ => false

/-- The post record resolved by `fetchData` in src/unnamed/part_000. -/
structure PostRecord where
  id : Nat
  title : String
  content : String
deriving DecidableEq, Repr

/-- The user record resolved by `fetchUserProfile` in src/unnamed/part_003. -/
structure UserData where
  id : Nat
  name : String
  email : String
  role : String
deriving DecidableEq, Repr

/-- A post summary resolved by `fetchPosts` in src/unnamed/part_003. -/
structure PostData where
  id : Nat
  title : String
  excerpt : String
  likes : Nat
deriving DecidableEq, Repr

/-- A comment resolved by `fetchComments` in src/unnamed/part_003. -/
structure CommentData where
  id : Nat
  author : String
  text : String
  timestamp : String
deriving DecidableEq, Repr

/-- The settlement events scheduled by `fetchData`'s executor
(src/unnamed/part_000): a single resolve at 1000 ms with the post built from
the id. -/
def fetchData (id : Nat) : List (Nat × Settled PostRecord) :=
  [ (1000, .resolved
      { id := id,
        title := "Post " ++ toString id,
        content := "This is the content for post " ++ toString id
          ++ ". The use() hook allows us to read this promise directly in the component!" }) ]

/-- The settlement events scheduled by `fetchUserProfile`
(src/unnamed/part_003): a single resolve at 1000 ms with a fixed user. -/
def fetchUserProfile : List (Nat × Settled UserData) :=
  [ (1000, .resolved
      { id := 1, name := "Alex Johnson", email := "alex@example.com",
        role := "Senior Developer" }) ]

/-- The settlement events scheduled by `fetchPosts` (src/unnamed/part_003):
a single resolve at 2000 ms with two fixed posts. -/
def fetchPosts : List (Nat × Settled (List PostData)) :=
  [ (2000, .resolved
      [ { id := 1, title := "Understanding React 19",
          excerpt := "Exploring new features...", likes := 42 },
        { id := 2, title := "Suspense Deep Dive",
          excerpt := "How Suspense works...", likes := 38 } ]) ]

/-- The settlement events scheduled by `fetchComments`
(src/unnamed/part_003): a single resolve at 3000 ms with three fixed
comments. -/
def fetchComments : List (Nat × Settled (List CommentData)) :=
  [ (3000, .resolved
      [ { id := 1, author := "Sarah", text := "Great article!",
          timestamp := "2 hours ago" },
        { id := 2, author := "Mike", text := "Very informative",
          timestamp := "3 hours ago" },
        { id := 3, author := "Emma", text := "Thanks for sharing",
          timestamp := "5 hours ago" } ]) ]

/-- The settlement events of `updateTodoOnServer`
(src/app/use-optimistic/page.tsx): `setTimeout(resolve, 2000)` resolves with
no value after 2000 ms; the id argument is ignored. -/
def updateTodoOnServer (id : Nat) : List (Nat × Settled Unit) :=
  [ (2000, .resolved ()) ]

/-! ### Suspense comparison timelines (src/unnamed/part_003) -/

/-- The kinds of timeline events the comparison records. -/
inductive TimelineKind where
  | fetchStart : TimelineKind
  | fetchEnd : TimelineKind
  | fallback : TimelineKind
deriving DecidableEq, Repr

/-- One recording the simulation effect performs: at `fireTime` milliseconds
after the run starts, an event of kind `kind` is appended whose stored
timestamp is `storedOffset` milliseconds after the start. -/
structure RecordedEvent where
  fireTime : Nat
  kind : TimelineKind
  storedOffset : Nat
deriving DecidableEq, Repr

/-- The recordings of the `React18Simulation` effect: the three fetch-start
events are set synchronously when the effect runs (stored timestamps
`startTime`, `+10`, `+20`); a timer appends the fallback event at 800 ms;
each fetch's `.then` appends a fetch-end when its 1000/2000/3000 ms promise
resolves. -/
def react18Events : List RecordedEvent :=
  [ { fireTime := 0, kind := .fetchStart, storedOffset := 0 },
    { fireTime := 0, kind := .fetchStart, storedOffset := 10 },
    { fireTime := 0, kind := .fetchStart, storedOffset := 20 },
    { fireTime := 800, kind := .fallback, storedOffset := 800 },
    { fireTime := 1000, kind := .fetchEnd, storedOffset := 1000 },
    { fireTime := 2000, kind := .fetchEnd, storedOffset := 2000 },
    { fireTime := 3000, kind := .fetchEnd, storedOffset := 3000 } ]

/-- The recordings of the `React19Demo` effect: a 10 ms timer appends the
fallback event; the three fetch-start events are set synchronously when the
effect runs (stored timestamps `startTime`, `+5`, `+10`); each promise's
`.then` appends a fetch-end at its resolution. -/
def react19Events : List RecordedEvent :=
  [ { fireTime := 10, kind := .fallback, storedOffset := 10 },
    { fireTime := 0, kind := .fetchStart, storedOffset := 0 },
    { fireTime := 0, kind := .fetchStart, storedOffset := 5 },
    { fireTime := 0, kind := .fetchStart, storedOffset := 10 },
    { fireTime := 1000, kind := .fetchEnd, storedOffset := 1000 },
    { fireTime := 2000, kind := .fetchEnd, storedOffset := 2000 },
    { fireTime := 3000, kind := .fetchEnd, storedOffset := 3000 } ]

/-! ## Theorems -/

lemma substringOf_name_successMessage (n e : String) :
    SubstringOf n (successMessage n e) :=
  ⟨"Thanks ",
    "! We received your message and will contact you at " ++ e ++ " soon.",
    by simp [successMessage, String.append_assoc]⟩

lemma substringOf_email_successMessage (n e : String) :
    SubstringOf e (successMessage n e) :=
  ⟨"Thanks " ++ n ++ "! We received your message and will contact you at ",
    " soon.",
    by simp [successMessage, String.append_assoc]⟩

/-- C3: `submitFormAction` returns the all-fields error whenever name, email
or message is absent or empty, the email error whenever the fields are
present but the email has no `@`, and otherwise a success whose message
contains the submitted name and email.  (It is a total function of its
inputs, so it never throws.) -/
theorem submitFormAction_validation {α : Type} (p : α) (fd : SubmitFormData) :
    ((fd.name = none ∨ fd.name = some "" ∨ fd.email = none ∨ fd.email = some ""
        ∨ fd.message = none ∨ fd.message = some "") →
      submitFormAction p fd =
        { success := false, error := some "Please fill in all fields",
          message := none }) ∧
    (entryTruthy fd.name → entryTruthy fd.email → entryTruthy fd.message →
      jsIncludes (entryValue fd.email) '@' = false →
      submitFormAction p fd =
        { success := false, error := some "Please enter a valid email address",
          message := none }) ∧
    (entryTruthy fd.name → entryTruthy fd.email → entryTruthy fd.message →
      jsIncludes (entryValue fd.email) '@' = true →
      ∃ m, submitFormAction p fd =
          { success := true, error := none, message := some m } ∧
        SubstringOf (entryValue fd.name) m ∧
        SubstringOf (entryValue fd.email) m) := by
  refine ⟨?_, ?_, ?_⟩
  · rintro (h | h | h | h | h | h) <;> simp [submitFormAction, entryTruthy, h]
  · intro h1 h2 h3 h4
    simp [submitFormAction, h1, h2, h3, h4]
  · intro h1 h2 h3 h4
    refine ⟨successMessage (entryValue fd.name) (entryValue fd.email), ?_, ?_, ?_⟩
    · simp [submitFormAction, h1, h2, h3, h4]
    · exact substringOf_name_successMessage _ _
    · exact substringOf_email_successMessage _ _

/-- Witness for C3 at a concrete input with an absent message field. -/
theorem submitFormAction_validation_witness :
    submitFormAction ()
        { name := some "Ada", email := some "ada@example.com", message := none } =
      { success := false, error := some "Please fill in all fields",
        message := none } :=
  (submitFormAction_validation ()
      { name := some "Ada", email := some "ada@example.com", message := none }).1
    (Or.inr (Or.inr (Or.inr (Or.inr (Or.inl rfl)))))

/-- C10: `submitFormAction` never reads `prevState`, so two calls with the
same form data and arbitrary (even differently typed) previous states return
equal results. -/
theorem submitFormAction_prevState_irrelevant {α β : Type} (p₁ : α) (p₂ : β)
    (fd : SubmitFormData) : submitFormAction p₁ fd = submitFormAction p₂ fd :=
  rfl

/-- C4 counterexample: the Form Actions todo reducer, given a whitespace-only
todo field, returns the current list unchanged — here the empty list, a state
containing no string at all, hence no validation message. -/
theorem todoFormAction_no_validation_message :
    todoFormAction [] " " = [] ∧ ∀ s : String, s ∉ todoFormAction [] " " := by
  have h : todoFormAction [] " " = [] := by decide
  exact ⟨h, fun s hs => by rw [h] at hs; exact List.not_mem_nil s hs⟩

/-- C4 amended: only `submitFormAction` answers empty required fields with a
validation message; the Form Actions todo reducer returns the current list
unchanged, with no message, whenever the todo field trims to empty. -/
theorem formActions_empty_field_behavior {α : Type} (p : α)
    (fd : SubmitFormData) (todos : List String) (todo : String) :
    ((fd.name = none ∨ fd.name = some "" ∨ fd.email = none ∨ fd.email = some ""
        ∨ fd.message = none ∨ fd.message = some "") →
      (submitFormAction p fd).error = some "Please fill in all fields" ∧
      (submitFormAction p fd).success = false) ∧
    (jsTrim todo == "" → todoFormAction todos todo = todos) := by
  constructor
  · rintro (h | h | h | h | h | h) <;> simp [submitFormAction, entryTruthy, h]
  · intro h
    simp [todoFormAction, h]

/-- Witness for the amended C4 at concrete inputs. -/
theorem formActions_empty_field_behavior_witness :
    todoFormAction ["Buy milk"] "   " = ["Buy milk"] :=
  (formActions_empty_field_behavior () { name := none, email := none, message := none }
      ["Buy milk"] "   ").2 (by decide)

/-- C5: the optimistic reducer keeps the length (hence order and positions)
of the todo list, replaces the `completed` flag of the todo at a position
whose id equals the optimistic value's id while keeping its id and text, and
leaves the todo at every other position entirely unchanged. -/
theorem optimisticReducer_targets_matching_id (state : List Todo)
    (ov : OptimisticValue) :
    (optimisticReducer state ov).length = state.length ∧
    ∀ (i : Nat) (t : Todo), state[i]? = some t →
      (t.id = ov.id →
        (optimisticReducer state ov)[i]? =
          some { id := t.id, text := t.text, completed := ov.completed }) ∧
      (t.id ≠ ov.id → (optimisticReducer state ov)[i]? = some t) := by
  refine ⟨List.length_map _ _, ?_⟩
  intro i t ht
  constructor
  · intro hid
    simp [optimisticReducer, List.getElem?_map, ht, hid]
  · intro hid
    simp [optimisticReducer, List.getElem?_map, ht, hid]

/-- Witness for C5: toggling todo 2 in the demo's initial list. -/
theorem optimisticReducer_targets_matching_id_witness :
    (optimisticReducer initialTodos { id := 2, completed := true })[1]? =
      some { id := 2, text := "Try useOptimistic", completed := true } :=
  ((optimisticReducer_targets_matching_id initialTodos
      { id := 2, completed := true }).2 1
    { id := 2, text := "Try useOptimistic", completed := false } (by decide)).1 rfl

/-- C2: a throw during a child render is caught and stored by
`getDerivedStateFromError`; a render with a stored error returns the fallback
applied to that error together with the reset callback (modelled by the state
it installs); a render with no stored error returns the children; the reset
state has a null error, so the render after a reset returns the children
again; a successful child render changes nothing.  The only other member,
`componentDidCatch`, merely logs. -/
theorem errorBoundary_catch_store_render {ε χ φ : Type} (e : ε) (children : χ)
    (fallback : ε → ErrorBoundaryState ε → φ) (s : ErrorBoundaryState ε)
    (x : χ) :
    boundaryCatch s (Except.error e : Except ε χ) = getDerivedStateFromError e ∧
    getDerivedStateFromError e = { error := some e } ∧
    renderBoundary (getDerivedStateFromError e) children fallback =
      BoundaryOutput.fallbackOut (fallback e (resetErrorState ε)) ∧
    renderBoundary { error := none } children fallback =
      BoundaryOutput.childrenOut children ∧
    resetErrorState ε = { error := none } ∧
    renderBoundary (resetErrorState ε) children fallback =
      BoundaryOutput.childrenOut children ∧
    boundaryCatch s (Except.ok x) = s :=
  ⟨rfl, rfl, rfl, rfl, rfl, rfl, rfl⟩

/-- C9: `withViewTransition` applies its update function exactly once in both
branches, and the supported branch is behavior-equivalent to calling the
update directly. -/
theorem withViewTransition_applies_update_once {σ : Type} (supported : Bool)
    (f : σ → σ) (s : σ) (n : Nat) (u : σ × Nat → σ × Nat) :
    withViewTransition supported (countingUpdate f) (s, n) = (f s, n + 1) ∧
    withViewTransition true u = withViewTransition false u := by
  cases supported <;> exact ⟨rfl, rfl⟩

/-- C7: the React-18 simulation records exactly one fallback event and its
timer fires at 800 ms — never earlier — while the React-19 demo schedules its
single fallback event 10 ms after the start; both runs record their three
fetch-start events synchronously at the start of the run (firing time 0). -/
theorem suspense_timeline_fallback_timing :
    (react18Events.filter fun ev => ev.kind == TimelineKind.fallback).map
        RecordedEvent.fireTime = [800] ∧
    (react19Events.filter fun ev => ev.kind == TimelineKind.fallback).map
        RecordedEvent.fireTime = [10] ∧
    (react18Events.filter fun ev => ev.kind == TimelineKind.fetchStart).map
        RecordedEvent.fireTime = [0, 0, 0] ∧
    (react19Events.filter fun ev => ev.kind == TimelineKind.fetchStart).map
        RecordedEvent.fireTime = [0, 0, 0] := by
  decide

/-- C6: each of the five simulated operations schedules exactly one
settlement, at a fixed delay independent of its arguments, and that
settlement is a resolution (never a rejection); being plain functions of
their arguments, their settlement values are fully determined by them, and no
further timer — hence no retry or recovery step — exists. -/
theorem simulatedOps_fixed_delay_single_resolve :
    (∀ id, (fetchData id).map Prod.fst = [1000] ∧
      ∀ ev ∈ fetchData id, ev.2.isResolved = true) ∧
    (fetchUserProfile.map Prod.fst = [1000] ∧
      ∀ ev ∈ fetchUserProfile, ev.2.isResolved = true) ∧
    (fetchPosts.map Prod.fst = [2000] ∧
      ∀ ev ∈ fetchPosts, ev.2.isResolved = true) ∧
    (fetchComments.map Prod.fst = [3000] ∧
      ∀ ev ∈ fetchComments, ev.2.isResolved = true) ∧
    (∀ id, (updateTodoOnServer id).map Prod.fst = [2000] ∧
      ∀ ev ∈ updateTodoOnServer id, ev.2.isResolved = true) := by
  refine ⟨fun id => ⟨rfl, ?_⟩, ⟨rfl, ?_⟩, ⟨rfl, ?_⟩, ⟨rfl, ?_⟩,
    fun id => ⟨rfl, ?_⟩⟩ <;>
  · intro ev hev
    simp only [fetchData, fetchUserProfile, fetchPosts, fetchComments,
      updateTodoOnServer, List.mem_singleton] at hev
    subst hev
    rfl

/-- Witness for C6: the single settlement of `updateTodoOnServer 0` is a
resolution. -/
theorem simulatedOps_fixed_delay_single_resolve_witness :
    (((2000 : Nat), Settled.resolved ()) : Nat × Settled Unit).2.isResolved
      = true :=
  (simulatedOps_fixed_delay_single_resolve.2.2.2.2 0).2
    (2000, Settled.resolved ()) (by simp [updateTodoOnServer])

lemma holderAfter_eq_getLast {α β : Type} (init : α → β)
    (cbs : List (α → β)) (h : cbs ≠ []) :
    holderAfter init cbs = cbs.getLast h := by
  induction cbs generalizing init with
  | nil => exact absurd rfl h
  | cons a l ih =>
    cases l with
    | nil => rfl
    | cons b t =>
      have hne : b :: t ≠ [] := by simp
      have hstep : holderAfter init (a :: b :: t) = holderAfter a (b :: t) := rfl
      rw [hstep, ih a hne, List.getLast_cons hne]

/-- C1: the function the polyfill returns does not depend on the render's
callback argument (it is the one stable trampoline over the holder ref), and
invoking the trampoline after any nonempty sequence of stored callbacks calls
the most recently stored callback on the given argument and returns its
result. -/
theorem useEffectEvent_stable_latest {α β : Type} (init : α → β)
    (cbs : List (α → β)) (h : cbs ≠ []) (a : α) (cb₁ cb₂ : α → β) :
    useEffectEventReturn cb₁ = useEffectEventReturn cb₂ ∧
    trampoline (holderAfter init cbs) a = cbs.getLast h a :=
  ⟨rfl, congrArg (fun g => g a) (holderAfter_eq_getLast init cbs h)⟩

/-- Witness for C1: after storing the successor and doubling callbacks in
turn, the trampoline at 3 returns the doubling callback's value. -/
theorem useEffectEvent_stable_latest_witness :
    useEffectEventReturn (fun n : Nat => n + 1) =
        useEffectEventReturn (fun n : Nat => n * 2) ∧
    trampoline (holderAfter (fun n : Nat => n)
        [fun n => n + 1, fun n => n * 2]) 3 =
      ([fun n : Nat => n + 1, fun n => n * 2].getLast (by simp)) 3 :=
  useEffectEvent_stable_latest (fun n => n) [fun n => n + 1, fun n => n * 2]
    (by simp) 3 (fun n => n + 1) (fun n => n * 2)

/-- The cart invariant: item ids are pairwise distinct and every item is one
of the four available items. -/
def CartInvariant (items : List ShoppingCartItem) : Prop :=
  (items.map ShoppingCartItem.id).Nodup ∧ ∀ x ∈ items, x ∈ availableItems

/-- The predicate `addItem` filters `availableItems` with. -/
def unusedPred (items : List ShoppingCartItem) (item : ShoppingCartItem) :
    Bool :=
  !(items.any fun i => i.id == item.id)

lemma addItem_eq_match (items : List ShoppingCartItem) :
    addItem items =
      match availableItems.filter (unusedPred items) with
      | [] => items
      | x :: _ => items ++ [x] := rfl

lemma addItem_of_filter_nil {items : List ShoppingCartItem}
    (h : availableItems.filter (unusedPred items) = []) :
    addItem items = items := by
  rw [addItem_eq_match, h]

lemma addItem_of_filter_cons {items : List ShoppingCartItem}
    {x : ShoppingCartItem} {rest : List ShoppingCartItem}
    (h : availableItems.filter (unusedPred items) = x :: rest) :
    addItem items = items ++ [x] := by
  rw [addItem_eq_match, h]

lemma unusedPred_true_iff (items : List ShoppingCartItem)
    (item : ShoppingCartItem) :
    unusedPred items item = true ↔ ∀ i ∈ items, i.id ≠ item.id := by
  simp [unusedPred]

lemma unusedPred_false_iff (items : List ShoppingCartItem)
    (item : ShoppingCartItem) :
    unusedPred items item = false ↔ ∃ i ∈ items, i.id = item.id := by
  simp [unusedPred]

lemma addItem_invariant {items : List ShoppingCartItem}
    (h : CartInvariant items) : CartInvariant (addItem items) := by
  obtain ⟨hnd, hmem⟩ := h
  cases hl : availableItems.filter (unusedPred items) with
  | nil => rw [addItem_of_filter_nil hl]; exact ⟨hnd, hmem⟩
  | cons x rest =>
    rw [addItem_of_filter_cons hl]
    have hx : x ∈ availableItems.filter (unusedPred items) := by
      rw [hl]; exact List.mem_cons_self x rest
    have hxa : x ∈ availableItems := (List.mem_filter.mp hx).1
    have hpx : ∀ i ∈ items, i.id ≠ x.id :=
      (unusedPred_true_iff items x).mp (List.mem_filter.mp hx).2
    constructor
    · rw [List.map_append]
      rw [List.nodup_append]
      refine ⟨hnd, List.nodup_singleton _, ?_⟩
      intro n hn hn'
      simp only [List.map_cons, List.map_nil, List.mem_singleton] at hn'
      obtain ⟨i, hi, rfl⟩ := List.mem_map.mp hn
      exact hpx i hi hn'
    · intro y hy
      rcases List.mem_append.mp hy with h1 | h1
      · exact hmem y h1
      · rw [List.mem_singleton] at h1
        exact h1 ▸ hxa

lemma removeItem_invariant {items : List ShoppingCartItem} (id : Nat)
    (h : CartInvariant items) : CartInvariant (removeItem items id) := by
  obtain ⟨hnd, hmem⟩ := h
  constructor
  · exact hnd.sublist ((List.filter_sublist items).map ShoppingCartItem.id)
  · intro y hy
    exact hmem y (List.mem_of_mem_filter hy)

lemma foldl_cart_invariant (ops : List CartOp) :
    ∀ items, CartInvariant items →
      CartInvariant (ops.foldl applyCartOp items) := by
  induction ops with
  | nil => exact fun items h => h
  | cons op rest ih =>
    intro items h
    apply ih
    cases op with
    | add => exact addItem_invariant h
    | remove id => exact removeItem_invariant id h

lemma initialItems_invariant : CartInvariant initialItems := by
  constructor
  · decide
  · intro x hx
    simp only [initialItems, List.mem_cons, List.not_mem_nil, or_false] at hx
    rcases hx with rfl | rfl <;> simp [availableItems]

lemma cart_length_le_four {items : List ShoppingCartItem}
    (h : CartInvariant items) : items.length ≤ 4 := by
  obtain ⟨hnd, hmem⟩ := h
  have hsub : (items.map ShoppingCartItem.id).toFinset ⊆
      ({1, 2, 3, 4} : Finset Nat) := by
    intro n hn
    rw [List.mem_toFinset] at hn
    obtain ⟨x, hx, rfl⟩ := List.mem_map.mp hn
    have hxa := hmem x hx
    simp only [availableItems, List.mem_cons, List.not_mem_nil, or_false] at hxa
    rcases hxa with rfl | rfl | rfl | rfl <;> decide
  have hcard : (items.map ShoppingCartItem.id).toFinset.card = items.length := by
    rw [List.toFinset_card_of_nodup hnd, List.length_map]
  have hle := Finset.card_le_card hsub
  rw [hcard] at hle
  simpa using hle

lemma addItem_of_all_present {items : List ShoppingCartItem}
    (h : ∀ a ∈ availableItems, ∃ i ∈ items, i.id = a.id) :
    addItem items = items := by
  apply addItem_of_filter_nil
  rw [List.filter_eq_nil_iff]
  intro a ha
  rw [Bool.not_eq_true, unusedPred_false_iff]
  exact h a ha

lemma addItem_appends_first_unused (items : List ShoppingCartItem) :
    addItem items = items ∨
    ∃ pre x post, availableItems = pre ++ x :: post ∧
      (∀ y ∈ pre, ∃ i ∈ items, i.id = y.id) ∧
      (∀ i ∈ items, i.id ≠ x.id) ∧
      addItem items = items ++ [x] := by
  cases hl : availableItems.filter (unusedPred items) with
  | nil => exact Or.inl (addItem_of_filter_nil hl)
  | cons x rest =>
    right
    obtain ⟨l₁, l₂, hsplit, hpre, hpx, -⟩ := List.filter_eq_cons_iff.mp hl
    refine ⟨l₁, x, l₂, hsplit, ?_, ?_, addItem_of_filter_cons hl⟩
    · intro y hy
      have := hpre y hy
      rw [Bool.not_eq_true, unusedPred_false_iff] at this
      exact this
    · exact (unusedPred_true_iff items x).mp hpx

/-- C8: after every sequence of add and remove operations from the initial
two-item cart, the cart's item ids are pairwise distinct and the cart holds
at most four items; `addItem` on the reached cart is the identity when all
four available items are present, and otherwise it appends exactly the first
available item whose id is absent. -/
theorem cart_id_invariant (ops : List CartOp) :
    ((runCartOps ops).map ShoppingCartItem.id).Nodup ∧
    (runCartOps ops).length ≤ 4 ∧
    ((∀ a ∈ availableItems, ∃ i ∈ runCartOps ops, i.id = a.id) →
      addItem (runCartOps ops) = runCartOps ops) ∧
    (addItem (runCartOps ops) = runCartOps ops ∨
      ∃ pre x post, availableItems = pre ++ x :: post ∧
        (∀ y ∈ pre, ∃ i ∈ runCartOps ops, i.id = y.id) ∧
        (∀ i ∈ runCartOps ops, i.id ≠ x.id) ∧
        addItem (runCartOps ops) = runCartOps ops ++ [x]) := by
  have hinv : CartInvariant (runCartOps ops) :=
    foldl_cart_invariant ops initialItems initialItems_invariant
  exact ⟨hinv.1, cart_length_le_four hinv,
    fun h => addItem_of_all_present h,
    addItem_appends_first_unused (runCartOps ops)⟩

/-- Witness for C8: two adds fill the cart with all four items, after which
another add leaves it unchanged. -/
theorem cart_id_invariant_witness :
    addItem (runCartOps [CartOp.add, CartOp.add]) =
      runCartOps [CartOp.add, CartOp.add] :=
  (cart_id_invariant [CartOp.add, CartOp.add]).2.2.1 (by decide)

end ReactConfDemos
